import Mathlib

/-!
Verification of the my-tour bookmark gateway, error classifier, response
normalizer and retry policy, shallowly embedded from the TypeScript source
(`lib/api/supabase-api.ts`, `actions/bookmarks.ts`, the bookmarks migration
SQL, `lib/utils/error-handler.ts`, `app/page.tsx`,
`app/places/[contentId]/page.tsx`, `app/bookmarks/page.tsx`).
-/

namespace MyTour

/-- JavaScript `String.prototype.trim`: strip leading and trailing
whitespace (structurally recursive, so it evaluates in the kernel). -/
def jsTrim (s : String) : String :=
  String.mk (((s.data.dropWhile Char.isWhitespace).reverse.dropWhile
    Char.isWhitespace).reverse)

/-- JavaScript `String.prototype.toLowerCase` (ASCII case folding; the
Korean keywords used by the classifier are unaffected by case). -/
def jsToLower (s : String) : String :=
  String.mk (s.data.map Char.toLower)

/-! ## Persisted store (migration SQL: `users`, `bookmarks` tables) -/

/-- A row of the `bookmarks` table
(`id uuid pk, user_id uuid, content_id text, created_at timestamptz`);
ids and timestamps are modelled as `Nat`/`String`. -/
structure BookmarkRow where
  id : Nat
  user_id : String
  content_id : String
  created_at : Nat
deriving DecidableEq

/-- A row of the `users` table (`id uuid pk, clerk_id text unique, name`). -/
structure UserRow where
  id : String
  clerk_id : String
  name : String
deriving DecidableEq

/-- A PostgREST error as surfaced by the supabase client (`code`, `message`). -/
structure PostgrestError where
  code : String
  message : String
deriving DecidableEq

/-- `INSERT INTO bookmarks (user_id, content_id)` under the
`unique_user_bookmark unique(user_id, content_id)` constraint: a row with the
same `(user_id, content_id)` pair makes the insert fail with Postgres error
code 23505 (unique_violation); otherwise the new row is stored and returned
(the `.select().single()` of the client). -/
def dbInsertBookmark (db : List BookmarkRow) (newId : Nat) (uid cid : String)
    (now : Nat) : Except PostgrestError (BookmarkRow × List BookmarkRow) :=
  if db.any (fun r => r.user_id == uid && r.content_id == cid) then
    .error ⟨"23505", "duplicate key value violates unique constraint"⟩
  else
    let row : BookmarkRow := ⟨newId, uid, cid, now⟩
    .ok (row, row :: db)

/-- The `ORDER BY created_at DESC` comparison used by the bookmark list query. -/
def byCreatedDesc (a b : BookmarkRow) : Prop :=
  b.created_at ≤ a.created_at

instance : DecidableRel byCreatedDesc :=
  fun a b => Nat.decLe b.created_at a.created_at

instance : IsTotal BookmarkRow byCreatedDesc :=
  ⟨fun a b => Nat.le_total b.created_at a.created_at⟩

instance : IsTrans BookmarkRow byCreatedDesc :=
  ⟨fun _ _ _ hab hbc => le_trans hbc hab⟩

/-- `SELECT * FROM bookmarks WHERE user_id = uid ORDER BY created_at DESC`. -/
def dbSelectBookmarks (db : List BookmarkRow) (uid : String) : List BookmarkRow :=
  List.insertionSort byCreatedDesc (db.filter (fun r => r.user_id == uid))

/-- `DELETE FROM bookmarks WHERE user_id = uid AND content_id = cid`. -/
def dbDeleteBookmarks (db : List BookmarkRow) (uid cid : String) : List BookmarkRow :=
  db.filter (fun r => !(r.user_id == uid && r.content_id == cid))

/-! ## Bookmark API (`lib/api/supabase-api.ts`) -/

/-- `getSupabaseUserId`: look the Clerk id up in `users`; the `.single()`
call reports PGRST116 when no row matches, which the function maps to `null`
(here `none`); otherwise it returns the internal `id`. -/
def getSupabaseUserId (users : List UserRow) (clerkId : String) :
    Except String (Option String) :=
  match users.find? (fun u => u.clerk_id == clerkId) with
  | none => .ok none
  | some u => .ok (some u.id)

/-- `getBookmarks`: the user's rows ordered by `created_at` descending;
a user with no rows yields `data = []`, not an error. -/
def getBookmarks (db : List BookmarkRow) (userId : String) :
    Except String (List BookmarkRow) :=
  .ok (dbSelectBookmarks db userId)

/-- `addBookmark`: insert, translating the 23505 unique-violation into the
message "이미 북마크한 관광지입니다." and any other storage error into
"Failed to add bookmark: ...". -/
def addBookmark (db : List BookmarkRow) (newId : Nat) (userId contentId : String)
    (now : Nat) : Except String (BookmarkRow × List BookmarkRow) :=
  match dbInsertBookmark db newId userId contentId now with
  | .error e =>
    if e.code == "23505" then .error "이미 북마크한 관광지입니다."
    else .error ("Failed to add bookmark: " ++ e.message)
  | .ok (row, db') => .ok (row, db')

/-- The `{ success: boolean }` object returned by `removeBookmark`. -/
structure RemoveResult where
  success : Bool
deriving DecidableEq

/-- `removeBookmark`: delete by `(user_id, content_id)` filter and return
`{ success: true }`; the client's delete does not error on zero matches. -/
def removeBookmark (db : List BookmarkRow) (userId contentId : String) :
    Except String (RemoveResult × List BookmarkRow) :=
  .ok (⟨true⟩, dbDeleteBookmarks db userId contentId)

/-! ## Server actions (`actions/bookmarks.ts`) -/

/-- `getBookmarksAction`: Clerk auth check, then user resolution, then list.
`clerkUser` is the authenticated Clerk user id (`none` when signed out). -/
def getBookmarksAction (clerkUser : Option String) (users : List UserRow)
    (db : List BookmarkRow) : Except String (List BookmarkRow) :=
  match clerkUser with
  | none => .error "로그인이 필요합니다."
  | some clerkId =>
    match getSupabaseUserId users clerkId with
    | .error e => .error e
    | .ok none => .error "사용자 정보를 찾을 수 없습니다. 먼저 로그인해주세요."
    | .ok (some uid) =>
      match getBookmarks db uid with
      | .error e => .error e
      | .ok bs => .ok bs

/-- `addBookmarkAction`: parameter validation (`contentId.trim() === ""`),
then Clerk auth, then user resolution, then `addBookmark`. The second
component is the resulting bookmark store. -/
def addBookmarkAction (clerkUser : Option String) (users : List UserRow)
    (db : List BookmarkRow) (newId now : Nat) (contentId : String) :
    Except String BookmarkRow × List BookmarkRow :=
  if jsTrim contentId = "" then (.error "관광지 ID가 필요합니다.", db)
  else
    match clerkUser with
    | none => (.error "로그인이 필요합니다.", db)
    | some clerkId =>
      match getSupabaseUserId users clerkId with
      | .error e => (.error e, db)
      | .ok none => (.error "사용자 정보를 찾을 수 없습니다. 먼저 로그인해주세요.", db)
      | .ok (some uid) =>
        match addBookmark db newId uid contentId now with
        | .error e => (.error e, db)
        | .ok (row, db') => (.ok row, db')

/-- `removeBookmarkAction`: parameter validation, then Clerk auth, then user
resolution, then `removeBookmark`. -/
def removeBookmarkAction (clerkUser : Option String) (users : List UserRow)
    (db : List BookmarkRow) (contentId : String) :
    Except String RemoveResult × List BookmarkRow :=
  if jsTrim contentId = "" then (.error "관광지 ID가 필요합니다.", db)
  else
    match clerkUser with
    | none => (.error "로그인이 필요합니다.", db)
    | some clerkId =>
      match getSupabaseUserId users clerkId with
      | .error e => (.error e, db)
      | .ok none => (.error "사용자 정보를 찾을 수 없습니다. 먼저 로그인해주세요.", db)
      | .ok (some uid) =>
        match removeBookmark db uid contentId with
        | .error e => (.error e, db)
        | .ok (res, db') => (.ok res, db')

/-! ## Error classifier (`lib/utils/error-handler.ts`) -/

/-- The `ErrorType` enum of `error-handler.ts`. -/
inductive ErrorType where
  | NETWORK
  | API
  | AUTH
  | VALIDATION
  | NOT_FOUND
  | SERVER
  | UNKNOWN
deriving DecidableEq

/-- A JavaScript error value as seen by `getErrorType`: either an `Error`
instance carrying `name` and `message`, or any other value. -/
inductive ErrValue where
  | err (name : String) (message : String)
  | nonError (repr : String)
deriving DecidableEq

/-- Whether `sub` matches `hay` starting at its head. -/
def matchesAt : List Char → List Char → Bool
  | [], _ => true
  | _ :: _, [] => false
  | a :: as, b :: bs => a == b && matchesAt as bs

/-- Whether `sub` occurs somewhere in `hay`. -/
def containsSub (sub : List Char) : List Char → Bool
  | [] => matchesAt sub []
  | c :: rest => matchesAt sub (c :: rest) || containsSub sub rest

/-- JavaScript `String.prototype.includes`. -/
def strIncludes (s sub : String) : Bool :=
  containsSub sub.toList s.toList

/-- `getErrorType`: classify by lowercased `name`/`message` substrings, in
source order (network, auth, API, validation, not-found, server, unknown). -/
def getErrorType (e : ErrValue) : ErrorType :=
  match e with
  | .nonError _ => .UNKNOWN
  | .err nm msg =>
    let message := jsToLower msg
    let name := jsToLower nm
    if name == "networkerror" || name == "typeerror" ||
        strIncludes message "network" || strIncludes message "fetch" ||
        strIncludes message "failed to fetch" ||
        strIncludes message "network request failed" then .NETWORK
    else if strIncludes message "인증" || strIncludes message "api 키" ||
        strIncludes message "authentication" ||
        strIncludes message "unauthorized" ||
        strIncludes message "forbidden" then .AUTH
    else if strIncludes message "api 에러" || strIncludes message "api 호출" ||
        strIncludes message "resultcode" ||
        strIncludes message "service_key" then .API
    else if strIncludes message "필수 파라미터" ||
        strIncludes message "validation" ||
        strIncludes message "invalid" then .VALIDATION
    else if strIncludes message "not found" ||
        strIncludes message "찾을 수 없" ||
        strIncludes message "존재하지 않" then .NOT_FOUND
    else if strIncludes message "서버 에러" ||
        strIncludes message "server error" || strIncludes message "500" ||
        strIncludes message "502" || strIncludes message "503" then .SERVER
    else .UNKNOWN

/-- The raw `message` of the value (`error.message` or `String(error)`). -/
def errMessage : ErrValue → String
  | .err _ msg => msg
  | .nonError s => s

/-- `getUserFriendlyMessage`: the localized user-facing string per type. -/
def getUserFriendlyMessage (e : ErrValue) (t : ErrorType) : String :=
  match t with
  | .NETWORK => "네트워크 연결에 문제가 있습니다. 인터넷 연결을 확인하고 다시 시도해주세요."
  | .AUTH =>
    if strIncludes (errMessage e) "API 키" then
      "API 인증에 실패했습니다. 관리자에게 문의해주세요."
    else "인증에 실패했습니다. 다시 로그인해주세요."
  | .API =>
    if strIncludes (errMessage e) "호출 제한" then
      "API 호출 제한에 도달했습니다. 잠시 후 다시 시도해주세요."
    else if strIncludes (errMessage e) "서버 에러" then
      "서버에 일시적인 문제가 발생했습니다. 잠시 후 다시 시도해주세요."
    else "데이터를 불러오는 중 오류가 발생했습니다. 잠시 후 다시 시도해주세요."
  | .VALIDATION => "입력한 정보를 확인해주세요. 필수 항목이 누락되었거나 형식이 올바르지 않습니다."
  | .NOT_FOUND => "요청하신 정보를 찾을 수 없습니다."
  | .SERVER => "서버에 일시적인 문제가 발생했습니다. 잠시 후 다시 시도해주세요."
  | .UNKNOWN => "예상치 못한 오류가 발생했습니다. 잠시 후 다시 시도해주세요."

/-- The `ErrorInfo` record built by `getErrorInfo`. -/
structure ErrorInfo where
  type : ErrorType
  message : String
  userMessage : String
  canRetry : Bool
deriving DecidableEq

/-- `getErrorInfo`: classify, translate, and flag retryability
(`canRetry` for NETWORK, API and SERVER). -/
def getErrorInfo (e : ErrValue) : ErrorInfo :=
  let type := getErrorType e
  let userMessage := getUserFriendlyMessage e type
  let canRetry :=
    type == ErrorType.NETWORK || type == ErrorType.API || type == ErrorType.SERVER
  { type := type
    message := errMessage e
    userMessage := userMessage
    canRetry := canRetry }

/-! ## Retry Executor (`fetchTourAPI`, tour-api.ts as embedded in
`lib/utils/env-validation.ts`; two revisions are present and share the same
backoff formula and keyword-abort test — the embedding follows the later
revision, the one that imports `error-handler.ts`; the earlier revision
differs only in the wording of the thrown messages). -/

/-- `formatError` (`error-handler.ts`): translate any error to its
user-friendly message. -/
def formatError (e : ErrValue) : String :=
  getUserFriendlyMessage e (getErrorType e)

/-- The provider result envelope `data.response.header`
(`resultCode`, `resultMsg`). -/
structure ResponseHeader where
  resultCode : String
  resultMsg : String
deriving DecidableEq

/-- Outcome of one underlying `fetch` + JSON parse: a rejection (network
failure) carrying the rejection message, or an HTTP status together with the
envelope header when the body has one. -/
inductive FetchOutcome where
  | reject (message : String)
  | http (status : Nat) (header : Option ResponseHeader)
deriving DecidableEq

/-- The `try` block of one `fetchTourAPI` attempt: `response.ok` is status
200–299; 401/403, 429, ≥500 and other non-2xx each throw their specific
message; on 2xx a non-"0000" `resultCode` throws the translated provider
error (known terminal codes get fixed messages, others go through
`formatError`); otherwise the attempt succeeds. -/
def attemptResult (o : FetchOutcome) : Except String Unit :=
  match o with
  | .reject message => .error message
  | .http status header =>
    if ¬(200 ≤ status ∧ status < 300) then
      if status = 401 ∨ status = 403 then
        .error "API 인증 실패: API 키를 확인해주세요."
      else if status = 429 then
        .error "API 호출 제한 초과: 잠시 후 다시 시도해주세요."
      else if 500 ≤ status then
        .error "서버 에러: 잠시 후 다시 시도해주세요."
      else
        .error "데이터를 불러오는 중 오류가 발생했습니다."
    else
      match header with
      | some h =>
        if h.resultCode ≠ "0000" then
          if h.resultCode = "SERVICE_KEY_NOT_REGISTERED" then
            .error "API 인증에 실패했습니다. 관리자에게 문의해주세요."
          else if h.resultCode = "SERVICE_KEY_IS_NOT_VALID" then
            .error "API 인증에 실패했습니다. 관리자에게 문의해주세요."
          else if h.resultCode = "NO_MANDATORY_REQUEST_PARAMETERS_ERROR" then
            .error "입력한 정보를 확인해주세요. 필수 항목이 누락되었습니다."
          else
            .error (formatError (.err "Error"
              ("API 에러 (" ++ h.resultCode ++ "): " ++ h.resultMsg)))
        else .ok ()
      | none => .ok ()

/-- The `catch` block's immediate-abort test: messages containing any of the
authentication/validation keywords are rethrown at once instead of retried. -/
def isAbortMessage (message : String) : Bool :=
  strIncludes message "인증" || strIncludes message "API 키" ||
    strIncludes message "필수" || strIncludes message "누락"

/-- The exponential backoff computed at the end of attempt `attempt` before
the next attempt: `Math.min(1000 * Math.pow(2, attempt - 1), 5000)`. -/
def backoffDelay (attempt : Nat) : Nat :=
  min (1000 * 2 ^ (attempt - 1)) 5000

/-- Result of a `fetchTourAPI` run: how it ended, how many attempts were
performed, and the backoff delays slept between attempts. -/
inductive RetryResult where
  | success (attempts : Nat) (delays : List Nat)
  | failure (message : String) (attempts : Nat) (delays : List Nat)
deriving DecidableEq

/-- The attempt count of a run. -/
def RetryResult.attempts : RetryResult → Nat
  | .success a _ => a
  | .failure _ a _ => a

/-- The delays slept during a run. -/
def RetryResult.delays : RetryResult → List Nat
  | .success _ d => d
  | .failure _ _ d => d

/-- The `for (attempt = 1; attempt <= retries; attempt++)` loop of
`fetchTourAPI`. `fuel` is the number of attempts still allowed
(`retries - attempt + 1`), `lastError` the last caught message, `delays` the
backoffs slept so far. A successful attempt returns; an abort-keyword
message is rethrown at once; otherwise the loop waits `backoffDelay attempt`
and retries while attempts remain, and after the last attempt the loop exits
and throws `formatError(lastError)` (or the generic message when no attempt
ever ran). -/
def fetchTourAPIGo (responses : Nat → FetchOutcome) :
    Nat → Nat → Option String → List Nat → RetryResult
  | 0, attempt, lastError, delays =>
    match lastError with
    | some msg => .failure (formatError (.err "Error" msg)) (attempt - 1) delays
    | none => .failure "데이터를 불러오는 중 오류가 발생했습니다." (attempt - 1) delays
  | fuel + 1, attempt, _, delays =>
    match attemptResult (responses attempt) with
    | .ok _ => .success attempt delays
    | .error msg =>
      if isAbortMessage msg then .failure msg attempt delays
      else if fuel = 0 then
        .failure (formatError (.err "Error" msg)) attempt delays
      else
        fetchTourAPIGo responses fuel (attempt + 1) (some msg)
          (delays ++ [backoffDelay attempt])

/-- `fetchTourAPI`: run the loop with `retries` allowed attempts (the source
default is 3), starting at attempt 1 with no last error. -/
def fetchTourAPI (responses : Nat → FetchOutcome) (retries : Nat) : RetryResult :=
  fetchTourAPIGo responses retries 1 none []

/-! ## List-response normalization (`app/page.tsx`, `transformItems`) -/

/-- A raw provider list item as delivered in the JSON body: every field may
be absent (`undefined`), so each is an `Option String`. -/
structure RawItem where
  addr1 : Option String
  addr2 : Option String
  areacode : Option String
  contentid : Option String
  contenttypeid : Option String
  title : Option String
  mapx : Option String
  mapy : Option String
  firstimage : Option String
  firstimage2 : Option String
  tel : Option String
  cat1 : Option String
  cat2 : Option String
  cat3 : Option String
  modifiedtime : Option String
deriving DecidableEq

/-- The `TourItem` shape built by `transformItems` (fields copied verbatim
from the raw item, so absence carries over). -/
structure TourItem where
  addr1 : Option String
  addr2 : Option String
  areacode : Option String
  contentid : Option String
  contenttypeid : Option String
  title : Option String
  mapx : Option String
  mapy : Option String
  firstimage : Option String
  firstimage2 : Option String
  tel : Option String
  cat1 : Option String
  cat2 : Option String
  cat3 : Option String
  modifiedtime : Option String
deriving DecidableEq

/-- The possible shapes of `response.response?.body?.items?.item`: absent
(or otherwise falsy), a single object, or an array. -/
inductive ItemField where
  | missing
  | single (it : RawItem)
  | array (its : List RawItem)
deriving DecidableEq

/-- `transformItems` (`app/page.tsx`): `Array.isArray(items)` maps each
element; a truthy non-array becomes a one-element array; anything else
yields `[]`. The two record constructions mirror the two separate literal
object builds in the source. -/
def transformItems : ItemField → List TourItem
  | .array its =>
    its.map (fun item =>
      { addr1 := item.addr1
        addr2 := item.addr2
        areacode := item.areacode
        contentid := item.contentid
        contenttypeid := item.contenttypeid
        title := item.title
        mapx := item.mapx
        mapy := item.mapy
        firstimage := item.firstimage
        firstimage2 := item.firstimage2
        tel := item.tel
        cat1 := item.cat1
        cat2 := item.cat2
        cat3 := item.cat3
        modifiedtime := item.modifiedtime })
  | .single items =>
    [ { addr1 := items.addr1
        addr2 := items.addr2
        areacode := items.areacode
        contentid := items.contentid
        contenttypeid := items.contenttypeid
        title := items.title
        mapx := items.mapx
        mapy := items.mapy
        firstimage := items.firstimage
        firstimage2 := items.firstimage2
        tel := items.tel
        cat1 := items.cat1
        cat2 := items.cat2
        cat3 := items.cat3
        modifiedtime := items.modifiedtime } ]
  | .missing => []

/-- The caller in `fetchTours`: `if (response.response?.body?.items?.item)`
run `transformItems`, otherwise set the empty list. -/
def normalizeBodyItems (f : ItemField) : List TourItem :=
  match f with
  | .missing => []
  | f => transformItems f

/-! ## Detail-page and bookmarks-page fan-out
(`app/places/[contentId]/page.tsx`, `app/bookmarks/page.tsx`) -/

/-- JavaScript `a || b` on possibly-absent strings: absent and `""` are falsy. -/
def jsOrStr (a b : Option String) : Option String :=
  match a with
  | some s => if s = "" then b else some s
  | none => b

/-- A raw `detailCommon2` item (all fields possibly absent). -/
structure RawDetail where
  contentid : Option String
  contenttypeid : Option String
  title : Option String
  addr1 : Option String
  addr2 : Option String
  zipcode : Option String
  tel : Option String
  homepage : Option String
  overview : Option String
  firstimage : Option String
  firstimage2 : Option String
  mapx : Option String
  mapy : Option String
  cat1 : Option String
  cat2 : Option String
  cat3 : Option String
  cpyrhtDivCd : Option String
  modifiedtime : Option String
deriving DecidableEq, Inhabited

/-- The `TourDetail` record built on the detail page (fields copied verbatim). -/
structure TourDetail where
  contentid : Option String
  contenttypeid : Option String
  title : Option String
  addr1 : Option String
  addr2 : Option String
  zipcode : Option String
  tel : Option String
  homepage : Option String
  overview : Option String
  firstimage : Option String
  firstimage2 : Option String
  mapx : Option String
  mapy : Option String
  cat1 : Option String
  cat2 : Option String
  cat3 : Option String
  cpyrhtDivCd : Option String
  modifiedtime : Option String
deriving DecidableEq

/-- Field-by-field copy of the first `detailCommon2` item into `TourDetail`. -/
def toTourDetail (item : RawDetail) : TourDetail :=
  { contentid := item.contentid
    contenttypeid := item.contenttypeid
    title := item.title
    addr1 := item.addr1
    addr2 := item.addr2
    zipcode := item.zipcode
    tel := item.tel
    homepage := item.homepage
    overview := item.overview
    firstimage := item.firstimage
    firstimage2 := item.firstimage2
    mapx := item.mapx
    mapy := item.mapy
    cat1 := item.cat1
    cat2 := item.cat2
    cat3 := item.cat3
    cpyrhtDivCd := item.cpyrhtDivCd
    modifiedtime := item.modifiedtime }

/-- A raw `detailIntro2` item: `contentid`/`contenttypeid` plus the open map
of type-specific fields. -/
structure IntroItem where
  contentid : Option String
  contenttypeid : Option String
  fields : List (String × String)
deriving DecidableEq

/-- The intro merge on the detail page:
`{ contentid: introItem.contentid || item.contentid, ... , ...introItem }` —
the spread overwrites with the intro item's own property whenever it is
present, so the `||` default survives only when the property is absent. -/
def mergeIntro (item : RawDetail) (ii : IntroItem) : IntroItem :=
  { contentid :=
      match ii.contentid with
      | some v => some v
      | none => jsOrStr ii.contentid item.contentid
    contenttypeid :=
      match ii.contenttypeid with
      | some v => some v
      | none => jsOrStr ii.contenttypeid item.contenttypeid
    fields := ii.fields }

/-- A raw `detailImage2` item. -/
structure RawImage where
  contentid : Option String
  originimgurl : Option String
  serialnum : Option String
  smallimageurl : Option String
  imgname : Option String
deriving DecidableEq

/-- The `TourImage` record built on the detail page. -/
structure TourImage where
  contentid : Option String
  originimgurl : Option String
  serialnum : Option String
  smallimageurl : Option String
  imgname : Option String
deriving DecidableEq

/-- Image mapping on the detail page:
`contentid: img.contentid || item.contentid`, other fields verbatim. -/
def toTourImage (item : RawDetail) (img : RawImage) : TourImage :=
  { contentid := jsOrStr img.contentid item.contentid
    originimgurl := img.originimgurl
    serialnum := img.serialnum
    smallimageurl := img.smallimageurl
    imgname := img.imgname }

/-- The intro branch of the detail page: a thrown intro fetch is caught and
ignored, and only a non-empty `items.item` array sets `intro`. -/
def introOf (item : RawDetail) (introR : Except String (List IntroItem)) :
    Option IntroItem :=
  match introR with
  | .error _ => none
  | .ok [] => none
  | .ok (ii :: _) => some (mergeIntro item ii)

/-- The image branch of the detail page: a thrown image fetch is caught and
ignored, and only a non-empty `items.item` array sets `images`. -/
def imagesOf (item : RawDetail) (imageR : Except String (List RawImage)) :
    Option (List TourImage) :=
  match imageR with
  | .error _ => none
  | .ok [] => none
  | .ok (i :: is) => some ((i :: is).map (toTourImage item))

/-- The data rendered by the detail page: the detail plus the possibly
absent intro and image-gallery branches. -/
structure PageData where
  detail : TourDetail
  intro : Option IntroItem
  images : Option (List TourImage)
deriving DecidableEq

/-- How a render of the detail page ends. -/
inductive DetailOutcome where
  | notFound
  | errored (msg : String)
  | page (d : PageData)
deriving DecidableEq

/-- `PlaceDetailPage` control flow: blank `contentId` → `notFound()`; a
failed or empty `detailCommon2` → error page / `notFound()`; otherwise the
intro and image branches each degrade to `none` on their own failure. -/
def placeDetailPage (contentId : String)
    (commonR : Except String (List RawDetail))
    (introR : Except String (List IntroItem))
    (imageR : Except String (List RawImage)) : DetailOutcome :=
  if jsTrim contentId = "" then .notFound
  else
    match commonR with
    | .error e => .errored e
    | .ok [] => .notFound
    | .ok (item :: _) =>
      .page ⟨toTourDetail item, introOf item introR, imagesOf item imageR⟩

/-- Per-bookmark fetch on the bookmarks page: a thrown `detailCommon2` or an
empty `items.item` yields `null`; otherwise the first item becomes a
`TourItem` (with `areacode` set to `""`). -/
def bookmarkTourOf (r : Except String (List RawDetail)) : Option TourItem :=
  match r with
  | .error _ => none
  | .ok [] => none
  | .ok (item :: _) =>
    some
      { contentid := item.contentid
        contenttypeid := item.contenttypeid
        title := item.title
        addr1 := item.addr1
        addr2 := item.addr2
        areacode := some ""
        mapx := item.mapx
        mapy := item.mapy
        firstimage := item.firstimage
        firstimage2 := item.firstimage2
        tel := item.tel
        cat1 := item.cat1
        cat2 := item.cat2
        cat3 := item.cat3
        modifiedtime := item.modifiedtime }

/-- The bookmarks page fan-out: map every per-bookmark fetch result and keep
the non-`null` ones (`Promise.all` then `filter`). -/
def bookmarksPageTours (results : List (Except String (List RawDetail))) :
    List TourItem :=
  (results.map bookmarkTourOf).filterMap id

/-! ## Theorems -/

/-- In a run of the `fetchTourAPI` loop with at least one allowed attempt,
the attempt count is at least the starting attempt number, and the delays
slept are exactly the already-accumulated ones followed by
`backoffDelay attempt, backoffDelay (attempt+1), ...`, one per retry. -/
lemma fetchTourAPIGo_run_shape (responses : Nat → FetchOutcome) :
    ∀ fuel, 1 ≤ fuel → ∀ attempt lastE ds,
      attempt ≤ (fetchTourAPIGo responses fuel attempt lastE ds).attempts
      ∧ (fetchTourAPIGo responses fuel attempt lastE ds).delays
        = ds ++ (List.range
            ((fetchTourAPIGo responses fuel attempt lastE ds).attempts
              - attempt)).map (fun i => backoffDelay (attempt + i)) := by
  intro fuel
  induction fuel with
  | zero => intro h; exact absurd h (by omega)
  | succ f ih =>
    intro _ attempt lastE ds
    rw [fetchTourAPIGo]
    split
    · simp [RetryResult.attempts, RetryResult.delays]
    · split
      · simp [RetryResult.attempts, RetryResult.delays]
      · split
        · simp [RetryResult.attempts, RetryResult.delays]
        · rename_i msg heq habort hf
          have h1f : 1 ≤ f := by omega
          have hih := ih h1f (attempt + 1) (some msg)
            (ds ++ [backoffDelay attempt])
          have hk : attempt + 1
              ≤ (fetchTourAPIGo responses f (attempt + 1) (some msg)
                  (ds ++ [backoffDelay attempt])).attempts := hih.1
          refine ⟨by omega, ?_⟩
          rw [hih.2, List.append_assoc]
          obtain ⟨m, hm⟩ : ∃ m,
              (fetchTourAPIGo responses f (attempt + 1) (some msg)
                (ds ++ [backoffDelay attempt])).attempts
              - (attempt + 1) = m := ⟨_, rfl⟩
          rw [hm, show (fetchTourAPIGo responses f (attempt + 1) (some msg)
              (ds ++ [backoffDelay attempt])).attempts - attempt = m + 1 from
                by omega]
          rw [List.range_succ_eq_map]
          simp only [List.map_cons, List.map_map, List.singleton_append,
            Nat.add_zero]
          congr 1
          congr 1
          apply List.map_congr_left
          intro a _
          simp only [Function.comp_apply]
          congr 1
          omega

/-- C4: the delay slept by `fetchTourAPI` after attempt `a` (i.e. before
attempt n = a + 1, so n ≥ 2) is `backoffDelay a = min(1000 × 2^(n-2), 5000)`
ms: every run's recorded delay list is `backoffDelay 1, backoffDelay 2, ...`,
the delays before attempts 2, 3, 4 are 1000 ms, 2000 ms, 4000 ms, and the
delay before every attempt from the fifth on is exactly the 5000 ms cap. -/
theorem backoffDelay_spec :
    (∀ n, 2 ≤ n → backoffDelay (n - 1) = min (1000 * 2 ^ (n - 2)) 5000)
    ∧ backoffDelay 1 = 1000 ∧ backoffDelay 2 = 2000 ∧ backoffDelay 3 = 4000
    ∧ (∀ n, 5 ≤ n → backoffDelay (n - 1) = 5000)
    ∧ (∀ (responses : Nat → FetchOutcome) (retries : Nat), 1 ≤ retries →
        (fetchTourAPI responses retries).delays
          = (List.range ((fetchTourAPI responses retries).attempts - 1)).map
              (fun i => backoffDelay (1 + i))) := by
  refine ⟨fun n hn => ?_, by decide, by decide, by decide, fun n hn => ?_, ?_⟩
  · rw [backoffDelay, show n - 1 - 1 = n - 2 from by omega]
  · have h8 : 8 ≤ 2 ^ (n - 1 - 1) := by
      calc (8 : Nat) = 2 ^ 3 := by norm_num
      _ ≤ 2 ^ (n - 1 - 1) := Nat.pow_le_pow_right (by norm_num) (by omega)
    have h5 : 5000 ≤ 1000 * 2 ^ (n - 1 - 1) := by nlinarith
    rw [backoffDelay]
    omega
  · intro responses retries hr
    simpa using (fetchTourAPIGo_run_shape responses retries hr 1 none []).2

/-- Witness for C4: the delay formula at n = 2 and n = 6, and the recorded
delay list of a run against an always-500 server with three attempts. -/
theorem backoffDelay_spec_witness :
    backoffDelay (2 - 1) = min (1000 * 2 ^ (2 - 2)) 5000
    ∧ backoffDelay (6 - 1) = 5000
    ∧ (fetchTourAPI (fun _ => .http 500 none) 3).delays
      = (List.range ((fetchTourAPI (fun _ => .http 500 none) 3).attempts
          - 1)).map (fun i => backoffDelay (1 + i)) :=
  ⟨backoffDelay_spec.1 2 (by decide), backoffDelay_spec.2.2.2.2.1 6 (by decide),
   backoffDelay_spec.2.2.2.2.2 (fun _ => .http 500 none) 3 (by decide)⟩

/-- C9: a response with HTTP status 401 (or 403) on the first attempt throws
the authentication message, which matches the immediate-abort keywords, so
`fetchTourAPI` fails after exactly one attempt with no backoff, whatever the
configured attempt count. -/
theorem fetchTourAPI_auth_no_second_attempt :
    ∀ (responses : Nat → FetchOutcome) (retries : Nat)
      (header : Option ResponseHeader), 1 ≤ retries →
      (responses 1 = .http 401 header →
        fetchTourAPI responses retries
          = .failure "API 인증 실패: API 키를 확인해주세요." 1 [])
      ∧ (responses 1 = .http 403 header →
        fetchTourAPI responses retries
          = .failure "API 인증 실패: API 키를 확인해주세요." 1 []) := by
  intro responses retries header hr
  obtain ⟨f, rfl⟩ : ∃ f, retries = f + 1 := ⟨retries - 1, by omega⟩
  have habort :
      isAbortMessage "API 인증 실패: API 키를 확인해주세요." = true := by decide
  refine ⟨fun h => ?_, fun h => ?_⟩
  · rw [fetchTourAPI, fetchTourAPIGo, h]
    have ha : attemptResult (FetchOutcome.http 401 header)
        = .error "API 인증 실패: API 키를 확인해주세요." := rfl
    rw [ha]
    simp [habort]
  · rw [fetchTourAPI, fetchTourAPIGo, h]
    have ha : attemptResult (FetchOutcome.http 403 header)
        = .error "API 인증 실패: API 키를 확인해주세요." := rfl
    rw [ha]
    simp [habort]

/-- Witness for C9: unconditional 401 (resp. 403) servers with three allowed
attempts stop after the first attempt with no delay. -/
theorem fetchTourAPI_auth_no_second_attempt_witness :
    fetchTourAPI (fun _ => .http 401 none) 3
      = .failure "API 인증 실패: API 키를 확인해주세요." 1 []
    ∧ fetchTourAPI (fun _ => .http 403 none) 3
      = .failure "API 인증 실패: API 키를 확인해주세요." 1 [] :=
  ⟨(fetchTourAPI_auth_no_second_attempt (fun _ => .http 401 none) 3 none
      (by decide)).1 rfl,
   (fetchTourAPI_auth_no_second_attempt (fun _ => .http 403 none) 3 none
      (by decide)).2 rfl⟩

/-- C5: normalizing a single (non-array) `items.item` object yields the same
one-element collection as the one-element array form, and an absent field
normalizes to the empty collection. -/
theorem transformItems_normalization :
    ∀ x : RawItem,
      normalizeBodyItems (.single x) = normalizeBodyItems (.array [x])
      ∧ (normalizeBodyItems (.single x)).length = 1
      ∧ normalizeBodyItems .missing = [] := by
  intro x
  exact ⟨rfl, rfl, rfl⟩

/-- C7: `getErrorInfo` flags `canRetry` exactly for the NETWORK, API
(rate-limit) and SERVER classifications; AUTH, VALIDATION, NOT_FOUND and
UNKNOWN (which the duplicate-bookmark message falls into) get
`canRetry = false`. -/
theorem getErrorInfo_canRetry :
    ∀ e : ErrValue,
      ((getErrorInfo e).canRetry = true ↔
        (getErrorType e = .NETWORK ∨ getErrorType e = .API ∨
          getErrorType e = .SERVER))
      ∧ ((getErrorType e = .AUTH ∨ getErrorType e = .VALIDATION ∨
          getErrorType e = .NOT_FOUND ∨ getErrorType e = .UNKNOWN) →
            (getErrorInfo e).canRetry = false)
      ∧ (getErrorInfo (.err "error" "이미 북마크한 관광지입니다.")).canRetry = false := by
  intro e
  have hc : (getErrorInfo e).canRetry =
      (getErrorType e == ErrorType.NETWORK || getErrorType e == ErrorType.API ||
        getErrorType e == ErrorType.SERVER) := rfl
  refine ⟨?_, ?_, by decide⟩
  · rw [hc]
    cases getErrorType e <;> simp
  · intro h
    rw [hc]
    rcases h with h | h | h | h <;> rw [h] <;> rfl

/-- Witness for C7: an "unauthorized" error is classified AUTH and is not
retryable. -/
theorem getErrorInfo_canRetry_witness :
    (getErrorInfo (.err "error" "unauthorized")).canRetry = false :=
  (getErrorInfo_canRetry (.err "error" "unauthorized")).2.1 (Or.inl (by decide))

/-- C2: deleting a non-existent bookmark succeeds with `success = true` and
leaves the store unchanged, and deletion is unconditionally idempotent: a
second identical delete returns the same successful result and state. -/
theorem removeBookmark_idempotent :
    ∀ (db : List BookmarkRow) (uid cid : String),
      ((∀ r ∈ db, ¬(r.user_id = uid ∧ r.content_id = cid)) →
        removeBookmark db uid cid = .ok (⟨true⟩, db))
      ∧ dbDeleteBookmarks (dbDeleteBookmarks db uid cid) uid cid
          = dbDeleteBookmarks db uid cid
      ∧ removeBookmark (dbDeleteBookmarks db uid cid) uid cid
          = removeBookmark db uid cid := by
  intro db uid cid
  have hidem : dbDeleteBookmarks (dbDeleteBookmarks db uid cid) uid cid
      = dbDeleteBookmarks db uid cid := by
    unfold dbDeleteBookmarks
    rw [List.filter_filter]
    simp
  refine ⟨?_, hidem, ?_⟩
  · intro h
    unfold removeBookmark dbDeleteBookmarks
    have : db.filter (fun r => !(r.user_id == uid && r.content_id == cid)) = db := by
      rw [List.filter_eq_self]
      intro r hr
      rcases not_and_or.mp (h r hr) with h1 | h1 <;> simp [h1]
    rw [this]
  · unfold removeBookmark
    rw [hidem]

/-- Witness for C2: deleting a pair not present in a one-row store succeeds
and returns the store unchanged. -/
theorem removeBookmark_idempotent_witness :
    removeBookmark [⟨1, "u", "125266", 5⟩] "u" "99"
      = .ok (⟨true⟩, [⟨1, "u", "125266", 5⟩]) :=
  (removeBookmark_idempotent [⟨1, "u", "125266", 5⟩] "u" "99").1 (by decide)

/-- C10: a blank (empty or whitespace-only) content identifier makes both
`addBookmarkAction` and `removeBookmarkAction` fail with the validation
message, for every authentication state and store — so the check precedes
authentication and storage access, and the store is unchanged. -/
theorem blank_contentId_validation :
    ∀ (clerkUser : Option String) (users : List UserRow) (db : List BookmarkRow)
      (newId now : Nat) (s : String), jsTrim s = "" →
      addBookmarkAction clerkUser users db newId now s
        = (.error "관광지 ID가 필요합니다.", db)
      ∧ removeBookmarkAction clerkUser users db s
        = (.error "관광지 ID가 필요합니다.", db) := by
  intro clerkUser users db newId now s hs
  constructor
  · simp [addBookmarkAction, hs]
  · simp [removeBookmarkAction, hs]

/-- Witness for C10: a whitespace-only id is rejected even while signed in. -/
theorem blank_contentId_validation_witness :
    addBookmarkAction (some "user_2abc") [] [] 1 0 "  "
      = (.error "관광지 ID가 필요합니다.", []) :=
  (blank_contentId_validation (some "user_2abc") [] [] 1 0 "  " (by decide)).1

/-- C1: in a store with no bookmark for the pair, the first insert succeeds
(adding one row), the second insert for the same (user, content) pair fails
with the duplicate message and adds no row, and the user's list then holds
exactly one bookmark for that content identifier. -/
theorem bookmark_duplicate_insert :
    ∀ (db : List BookmarkRow) (uid cid : String) (id1 t1 id2 t2 : Nat),
      (∀ r ∈ db, ¬(r.user_id = uid ∧ r.content_id = cid)) →
      addBookmark db id1 uid cid t1
        = .ok (⟨id1, uid, cid, t1⟩, ⟨id1, uid, cid, t1⟩ :: db)
      ∧ addBookmark (⟨id1, uid, cid, t1⟩ :: db) id2 uid cid t2
        = .error "이미 북마크한 관광지입니다."
      ∧ ((dbSelectBookmarks (⟨id1, uid, cid, t1⟩ :: db) uid).filter
          (fun r => r.content_id == cid)).length = 1 := by
  intro db uid cid id1 t1 id2 t2 h
  have hany : (db.any fun r => r.user_id == uid && r.content_id == cid) = false := by
    rw [List.any_eq_false]
    intro r hr
    rcases not_and_or.mp (h r hr) with h1 | h1 <;> simp [h1]
  refine ⟨?_, ?_, ?_⟩
  · simp [addBookmark, dbInsertBookmark, hany]
  · simp [addBookmark, dbInsertBookmark]
  · rw [← List.countP_eq_length_filter]
    have hperm := List.perm_insertionSort byCreatedDesc
      ((⟨id1, uid, cid, t1⟩ :: db : List BookmarkRow).filter
        (fun r => r.user_id == uid))
    rw [dbSelectBookmarks, hperm.countP_eq]
    have hhead : ((⟨id1, uid, cid, t1⟩ :: db : List BookmarkRow).filter
        (fun r => r.user_id == uid))
        = ⟨id1, uid, cid, t1⟩ :: db.filter (fun r => r.user_id == uid) := by
      simp [List.filter_cons]
    rw [hhead, List.countP_cons]
    have hzero : (db.filter (fun r => r.user_id == uid)).countP
        (fun r => r.content_id == cid) = 0 := by
      rw [List.countP_eq_zero]
      intro r hr
      rw [List.mem_filter] at hr
      have h2 : r.user_id = uid := by simpa using hr.2
      rcases not_and_or.mp (h r hr.1) with h1 | h1
      · exact absurd h2 h1
      · simp [h1]
    rw [hzero]
    simp

/-- Witness for C1 starting from the empty store. -/
theorem bookmark_duplicate_insert_witness :
    addBookmark [] 1 "u" "125266" 10
      = .ok (⟨1, "u", "125266", 10⟩, [⟨1, "u", "125266", 10⟩])
    ∧ addBookmark [⟨1, "u", "125266", 10⟩] 2 "u" "125266" 20
      = .error "이미 북마크한 관광지입니다."
    ∧ ((dbSelectBookmarks [⟨1, "u", "125266", 10⟩] "u").filter
        (fun r => r.content_id == "125266")).length = 1 :=
  bookmark_duplicate_insert [] "u" "125266" 1 10 2 20 (by decide)

/-- C3: `getBookmarks` succeeds with the user's rows sorted by creation time
descending (a permutation of exactly the rows whose `user_id` matches), and
for a user with no rows it succeeds with the empty list. -/
theorem getBookmarks_ordered_and_total :
    ∀ (db : List BookmarkRow) (uid : String),
      getBookmarks db uid = .ok (dbSelectBookmarks db uid)
      ∧ List.Sorted byCreatedDesc (dbSelectBookmarks db uid)
      ∧ List.Perm (dbSelectBookmarks db uid)
          (db.filter (fun r => r.user_id == uid))
      ∧ ((∀ r ∈ db, r.user_id ≠ uid) → getBookmarks db uid = .ok []) := by
  intro db uid
  refine ⟨rfl, List.sorted_insertionSort byCreatedDesc _,
    List.perm_insertionSort byCreatedDesc _, ?_⟩
  intro h
  have hnil : db.filter (fun r => r.user_id == uid) = [] := by
    rw [List.filter_eq_nil_iff]
    intro r hr
    simpa using h r hr
  simp [getBookmarks, dbSelectBookmarks, hnil]

/-- Witness for C3: the list for a user with no rows is empty, not an error. -/
theorem getBookmarks_ordered_and_total_witness :
    getBookmarks [⟨1, "other", "125266", 5⟩] "u" = .ok [] :=
  (getBookmarks_ordered_and_total [⟨1, "other", "125266", 5⟩] "u").2.2.2
    (by decide)

/-- C8: for an authenticated Clerk identity with no matching internal user,
the user lookup returns an absent result, and list/add/remove each fail with
the "account not synced" message — distinct from the "not authenticated"
message — leaving the bookmark store unchanged. -/
theorem account_not_synced :
    ∀ (clerkId : String) (users : List UserRow) (db : List BookmarkRow)
      (newId now : Nat) (cid : String),
      users.find? (fun u => u.clerk_id == clerkId) = none →
      jsTrim cid ≠ "" →
      getSupabaseUserId users clerkId = .ok none
      ∧ getBookmarksAction (some clerkId) users db
        = .error "사용자 정보를 찾을 수 없습니다. 먼저 로그인해주세요."
      ∧ addBookmarkAction (some clerkId) users db newId now cid
        = (.error "사용자 정보를 찾을 수 없습니다. 먼저 로그인해주세요.", db)
      ∧ removeBookmarkAction (some clerkId) users db cid
        = (.error "사용자 정보를 찾을 수 없습니다. 먼저 로그인해주세요.", db)
      ∧ ("사용자 정보를 찾을 수 없습니다. 먼저 로그인해주세요." : String)
        ≠ "로그인이 필요합니다."
      ∧ getBookmarksAction none users db = .error "로그인이 필요합니다." := by
  intro clerkId users db newId now cid hfind hcid
  have hg : getSupabaseUserId users clerkId = .ok none := by
    simp [getSupabaseUserId, hfind]
  refine ⟨hg, ?_, ?_, ?_, by decide, rfl⟩
  · simp [getBookmarksAction, hg]
  · simp [addBookmarkAction, hg, hcid]
  · simp [removeBookmarkAction, hg, hcid]

/-- Witness for C8 with an empty `users` table. -/
theorem account_not_synced_witness :
    getSupabaseUserId [] "user_2abc" = .ok none
    ∧ addBookmarkAction (some "user_2abc") [] [] 1 0 "125266"
      = (.error "사용자 정보를 찾을 수 없습니다. 먼저 로그인해주세요.", []) := by
  have h := account_not_synced "user_2abc" [] [] 1 0 "125266" (by decide) (by decide)
  exact ⟨h.1, h.2.2.1⟩

/-- C6: in the detail-page fan-out a failed intro fetch (resp. image fetch)
degrades only its own branch to `none`, keeping the detail and the other
branch, and the page still renders; in the bookmarks-page fan-out a failing
per-bookmark fetch contributes nothing while the other fetches are kept. -/
theorem fanout_partial_failure :
    ∀ (cid : String) (item : RawDetail) (rest : List RawDetail) (e : String)
      (introR : Except String (List IntroItem))
      (imageR : Except String (List RawImage))
      (pre post : List (Except String (List RawDetail))),
      jsTrim cid ≠ "" →
      placeDetailPage cid (.ok (item :: rest)) (.error e) imageR
        = .page ⟨toTourDetail item, none, imagesOf item imageR⟩
      ∧ placeDetailPage cid (.ok (item :: rest)) introR (.error e)
        = .page ⟨toTourDetail item, introOf item introR, none⟩
      ∧ bookmarksPageTours (pre ++ .error e :: post)
        = bookmarksPageTours (pre ++ post) := by
  intro cid item rest e introR imageR pre post hcid
  refine ⟨?_, ?_, ?_⟩
  · simp [placeDetailPage, hcid, introOf]
  · simp [placeDetailPage, hcid, imagesOf]
  · simp [bookmarksPageTours, bookmarkTourOf]

/-- Witness for C6 at a concrete content id, item and batch. -/
theorem fanout_partial_failure_witness :
    placeDetailPage "125266" (.ok [(default : RawDetail)]) (.error "fail")
        (.ok [])
      = .page ⟨toTourDetail default, none, none⟩
    ∧ bookmarksPageTours [.ok [(default : RawDetail)], .error "fail"]
      = bookmarksPageTours [.ok [(default : RawDetail)]] := by
  have h := fanout_partial_failure "125266" default [] "fail" (.ok []) (.ok [])
    [.ok [(default : RawDetail)]] [] (by decide)
  exact ⟨h.1, h.2.2⟩

end MyTour
